import Mathlib

/-!
A formal model of the Z-Image-Turbo backend (`src/backend/main.py`):
configuration store, model directory resolution, pipeline lifecycle,
generation orchestration, and the WebSocket connection manager, together
with theorems about their behavior.

External effects (filesystem, network download, torch, the diffusers
pipeline) are modelled by explicit environment records that state whether
each fallible external call succeeds, and by explicit state passing of the
module-level globals (`model_config` and `pipe`).
-/

set_option autoImplicit false

namespace ZImageBackend

/-- A persisted configuration document (the JSON object in `config.json`).
Each field is `none` when the corresponding key is absent from the document;
the inner `Option` of `cache_dir` distinguishes JSON `null` (`some none`)
from a string value (`some (some s)`). -/
structure Config where
  cache_dir : Option (Option String)
  model_id : Option String
  cpu_offload : Option Bool
deriving Repr, DecidableEq

/-- The three relevant states of the `config.json` file when `load_config`
runs: the file does not exist, it exists but reading or JSON-parsing raises,
or it parses to a document `doc`. -/
inductive ConfigFileState where
  | missing
  | malformed
  | parsed (doc : Config)
deriving Repr, DecidableEq

/-- The literal fallback document built at the end of `load_config`
(main.py lines 38-41): `cache_dir` present and `null`, `model_id` present,
and no `cpu_offload` key. -/
def defaultDoc : Config :=
  { cache_dir := some none
    model_id := some "Tongyi-MAI/Z-Image-Turbo"
    cpu_offload := none }

/-- `load_config` (main.py lines 29-41): if the file exists and parses, the
parsed document is returned verbatim; if it exists but parsing raises, the
error is logged (the `Bool` component) and the fallback document is
returned; if the file is missing, the fallback document is returned without
logging. It never raises. -/
def load_config : ConfigFileState → Config × Bool
  | ConfigFileState.missing => (defaultDoc, false)
  | ConfigFileState.malformed => (defaultDoc, true)
  | ConfigFileState.parsed doc => (doc, false)

/-- Module initialization (main.py lines 57-59): `model_config = load_config()`
followed by inserting `cpu_offload = False` when that key is absent. -/
def initModelConfig (fs : ConfigFileState) : Config :=
  let c := (load_config fs).1
  if c.cpu_offload = none then { c with cpu_offload := some false } else c

/-- `save_config` (main.py lines 43-49): the write is attempted; on failure
the error is logged and swallowed. The returned list is the log output; the
function is total, mirroring that `save_config` never raises. -/
def save_config (saveOk : Bool) (_cfg : Config) : List String :=
  if saveOk then [] else ["Error saving config"]

/-- Python's `str.replace` specialized to a single-character pattern and
replacement (the only shape used by the source): substitute every occurrence
of the character. -/
def replaceChar (a b : Char) (s : String) : String :=
  String.mk (s.data.map (fun c => if c = a then b else c))

/-- The filesystem-safe directory name computed in `get_model_directory`
(main.py line 109): `model_id.replace("/", "_").replace("-", "_")`. -/
def safe_model_id (model_id : String) : String :=
  replaceChar '-' '_' (replaceChar '/' '_' model_id)

/-- `get_model_directory` (main.py lines 105-110), as a path relative to the
project root (the `Path(__file__).resolve().parent.parent.parent` prefix is a
per-process constant and is dropped): `models / safe_model_id`, where the
model id is read from the configuration with the default substituted. -/
def get_model_directory (cfg : Config) : List String :=
  ["models", safe_model_id (cfg.model_id.getD "Tongyi-MAI/Z-Image-Turbo")]

/-- A notification message as built in `send_notification`
(main.py lines 95-103); the constant `type = "notification"` key is dropped. -/
structure Notification where
  ntype : String
  message : String
  persistent : Bool
deriving Repr, DecidableEq

/-- The pipeline handle: `ZImagePipeline.from_pretrained` yields a handle with
`device = none` (constructed but not yet placed); the subsequent
`enable_model_cpu_offload()` / `pipe.to(device)` step sets `offloaded` and
`device`. -/
structure Pipeline where
  model_path : List String
  dtype_bf16 : Bool
  offloaded : Bool
  device : Option String
deriving Repr, DecidableEq

/-- The distinct failure points of `load_pipeline`. -/
inductive LoadError where
  | pipelineUnavailable
  | downloadFailed
  | constructionFailed
  | placementFailed
deriving Repr, DecidableEq

/-- The error detail string produced at each failure point of
`load_pipeline`; only `pipelineUnavailable` has a fixed text in the source
(main.py line 131), the others carry `str(e)` of the underlying exception. -/
def loadErrorDetail : LoadError → String
  | LoadError.pipelineUnavailable =>
      "ZImagePipeline class not available. Install diffusers from source."
  | LoadError.downloadFailed => "download failed"
  | LoadError.constructionFailed => "pipeline construction failed"
  | LoadError.placementFailed => "device placement failed"

/-- The environment of external effects observed during one `load_pipeline`
call: whether the `ZImagePipeline` import succeeded at process start, whether
`torch.cuda.is_available()`, whether the model directory already exists, and
whether each fallible external call (`snapshot_download`, `from_pretrained`,
device placement) succeeds. -/
structure LoadEnv where
  zImageAvailable : Bool
  cudaAvailable : Bool
  modelDirExists : Bool
  downloadOk : Bool
  fromPretrainedOk : Bool
  placementOk : Bool
deriving Repr, DecidableEq

/-- `load_pipeline` (main.py lines 126-173), as a function from the external
environment, the configuration, and the current value of the global `pipe` to
the outcome, the new value of `pipe`, and the notifications broadcast.
Faithful to the source:
* `ZImagePipeline is None` raises before any notification (line 131);
* the info notification is sent, then the directory check; a download
  failure propagates with `pipe` untouched (lines 143-145);
* `pipe = ZImagePipeline.from_pretrained(...)` assigns the global only when
  construction succeeds (line 153); a construction failure leaves `pipe`
  untouched, emits the persistent error notification, and re-raises
  (lines 169-173);
* the placement step (`enable_model_cpu_offload()` when `cpu_offload` is set
  and CUDA is available, else `pipe.to(device)`, lines 160-164) runs after
  the assignment; if it raises, the `except` clause re-raises WITHOUT
  resetting `pipe`, so the constructed-but-unplaced handle stays in the
  global. -/
def load_pipeline (env : LoadEnv) (cfg : Config) (pipe : Option Pipeline) :
    Except LoadError Unit × Option Pipeline × List Notification :=
  if !env.zImageAvailable then
    (Except.error LoadError.pipelineUnavailable, pipe, [])
  else
    let model_id := cfg.model_id.getD "Tongyi-MAI/Z-Image-Turbo"
    let n1 : Notification :=
      { ntype := "info", message := "开始加载模型 " ++ model_id ++ "...", persistent := false }
    let dlNotes : List Notification :=
      if env.modelDirExists then []
      else [{ ntype := "info", message := "模型未找到，开始下载...", persistent := false }]
    if !env.modelDirExists && !env.downloadOk then
      (Except.error LoadError.downloadFailed, pipe, n1 :: dlNotes)
    else
      let device := if env.cudaAvailable then "cuda" else "cpu"
      if !env.fromPretrainedOk then
        (Except.error LoadError.constructionFailed, pipe,
          n1 :: dlNotes ++
            [{ ntype := "error", message := "模型加载失败: pipeline construction failed",
               persistent := true }])
      else
        let p0 : Pipeline :=
          { model_path := get_model_directory cfg
            dtype_bf16 := env.cudaAvailable
            offloaded := false
            device := none }
        let offload := cfg.cpu_offload.getD false && env.cudaAvailable
        if env.placementOk then
          (Except.ok (), some { p0 with offloaded := offload, device := some device },
            n1 :: dlNotes ++
              [{ ntype := "success", message := "模型加载成功！设备: " ++ device,
                 persistent := true }])
        else
          (Except.error LoadError.placementFailed, some p0,
            n1 :: dlNotes ++
              [{ ntype := "error", message := "模型加载失败: device placement failed",
                 persistent := true }])

/-- `get_pipeline` (main.py lines 175-180): lazy loading — when the global
`pipe` is already set it is returned unchanged with no effects; only when it
is `None` does the load sequence run. -/
def get_pipeline (env : LoadEnv) (cfg : Config) (pipe : Option Pipeline) :
    Except LoadError Unit × Option Pipeline × List Notification :=
  match pipe with
  | some p => (Except.ok (), some p, [])
  | none => load_pipeline env cfg none

/-- `unload_pipeline` (main.py lines 182-189): sets the global `pipe` to
`None` (the CUDA cache eviction is an external effect with no modelled
state). -/
def unload_pipeline : Option Pipeline → Option Pipeline
  | some _ => none
  | none => none

/-- The body of `POST /settings/model-path` (pydantic `SettingsRequest`,
main.py lines 196-199). -/
structure SettingsRequest where
  cache_dir : String
  cpu_offload : Bool
deriving Repr, DecidableEq

/-- The external effects observed during one `handle_set_settings` call:
whether `req.cache_dir` already exists, whether `os.makedirs` succeeds, and
whether the `save_config` write succeeds. -/
structure SettingsEnv where
  cacheDirExists : Bool
  makedirsOk : Bool
  saveOk : Bool
deriving Repr, DecidableEq

/-- `handle_set_settings` (main.py lines 215-230), as a function from the
environment, the request, and the globals (`model_config`, `pipe`) to the
HTTP outcome (`Except (status, detail) (status, message)`), the new
configuration, the new `pipe`, and the log output. Faithful to the source:
`os.makedirs` runs only when `req.cache_dir` is truthy and the directory is
absent; a `makedirs` failure is re-raised as HTTP 500 before any mutation;
otherwise both keys are written into `model_config`, `save_config` runs
(logging, never raising), `unload_pipeline()` clears `pipe`, and the success
body is returned. -/
def handle_set_settings (env : SettingsEnv) (req : SettingsRequest)
    (cfg : Config) (pipe : Option Pipeline) :
    Except (Nat × String) (String × String) × Config × Option Pipeline × List String :=
  if req.cache_dir ≠ "" ∧ env.cacheDirExists = false ∧ env.makedirsOk = false then
    (Except.error (500, "makedirs failed"), cfg, pipe, [])
  else
    let cfg' := { cfg with cache_dir := some (some req.cache_dir),
                           cpu_offload := some req.cpu_offload }
    (Except.ok ("success", "Settings saved. Model will reload on next generation."),
      cfg', unload_pipeline pipe, save_config env.saveOk cfg')

/-- `handle_get_settings` (main.py lines 232-234): returns `model_config`
verbatim. -/
def handle_get_settings (cfg : Config) : Config := cfg

/-- The body of `POST /generate` (pydantic `GenerateRequest`, main.py lines
201-208). `guidance_scale` is real-valued in the source and modelled by
`Rat`; dimensions and seed are Python ints, modelled by `Int` (for a
positive divisor, Lean's `Int` `%` agrees with Python's `%`). -/
structure GenerateRequest where
  prompt : String
  height : Int := 1024
  width : Int := 1024
  steps : Int := 8
  guidance_scale : Rat := 0
  seed : Int := -1
deriving Repr, DecidableEq

/-- The HTTP outcome of `handle_generate_image`: the JSON success body or an
`HTTPException(status, detail)`. -/
inductive GenResult where
  | ok (image : String)
  | httpError (status : Nat) (detail : String)
deriving Repr, DecidableEq

/-- The external inference step (main.py lines 256-268): the diffusers
pipeline call plus PNG/base64 encoding, abstracted as a function of the
handle, the request, the generator argument (`some seed` for a manually
seeded `torch.Generator`, `none` for the unseeded default), and the ambient
RNG state of the compute device (a `Nat`), returning the base64 payload or
the raised exception's message. -/
def PipeFn : Type :=
  Pipeline → GenerateRequest → Option Int → Nat → Except String String

/-- A `PipeFn` honors the `torch.Generator` contract when its output under an
explicitly seeded generator does not depend on the ambient device RNG
state. -/
def GeneratorRespecting (pf : PipeFn) : Prop :=
  ∀ p req s r₁ r₂, pf p req (some s) r₁ = pf p req (some s) r₂

/-- `handle_generate_image` (main.py lines 236-273), as a function from the
inference step, the load environment, the ambient device RNG state, and the
globals to the HTTP outcome, the new `pipe`, and the notifications broadcast.
Faithful to the source:
* the dimension check (lines 239-240) raises HTTP 400 before anything else;
* inside the `try`, `get_pipeline` may run the full load sequence; any
  exception from it is converted to HTTP 500 (lines 271-273);
* the `None` re-check (lines 245-246) raises `ValueError` → HTTP 500;
* `generator` is a seeded `torch.Generator` exactly when `req.seed != -1`
  (lines 250-252), else `None`;
* an inference failure is converted to HTTP 500 with the global `pipe` left
  untouched. -/
def handle_generate_image (pf : PipeFn) (env : LoadEnv) (rng : Nat)
    (cfg : Config) (pipe : Option Pipeline) (req : GenerateRequest) :
    GenResult × Option Pipeline × List Notification :=
  if req.height % 16 ≠ 0 ∨ req.width % 16 ≠ 0 then
    (GenResult.httpError 400 "Height and Width must be divisible by 16.", pipe, [])
  else
    match get_pipeline env cfg pipe with
    | (Except.error e, pipe', notes) =>
        (GenResult.httpError 500 (loadErrorDetail e), pipe', notes)
    | (Except.ok _, none, notes) =>
        (GenResult.httpError 500 "Cannot get pipeline.", none, notes)
    | (Except.ok _, some p, notes) =>
        let generator : Option Int := if req.seed ≠ -1 then some req.seed else none
        match pf p req generator rng with
        | Except.error msg => (GenResult.httpError 500 msg, some p, notes)
        | Except.ok img =>
            (GenResult.ok ("data:image/png;base64," ++ img), some p, notes)

/-- Python's `list.remove` (used by `ConnectionManager.disconnect`): removes
the first occurrence of the value, raising `ValueError` when the value is not
present. -/
def list_remove {α : Type} [DecidableEq α] : List α → α → Except String (List α)
  | [], _ => Except.error "ValueError"
  | x :: xs, y =>
      if x = y then Except.ok xs
      else (list_remove xs y).map (fun l => x :: l)

/-- `ConnectionManager.disconnect` (main.py lines 71-72):
`self.active_connections.remove(websocket)`. Channels are modelled by `Nat`
identities; the registry by the list of registered channels in insertion
order. -/
def disconnect (registry : List Nat) (channel : Nat) : Except String (List Nat) :=
  list_remove registry channel

/-- `ConnectionManager.broadcast` (main.py lines 80-85): iterates over every
registered channel, attempting a send on each inside `try/except: pass`.
`sendOk` tells whether the send to a given channel raises. The result is the
list of delivery attempts (channel, outcome) in registry order paired with
the registry after the call; the loop body never writes the registry, and
the function is total — no exception reaches the caller. -/
def broadcast (sendOk : Nat → Bool) (registry : List Nat) :
    List (Nat × Bool) × List Nat :=
  (registry.map (fun c => (c, sendOk c)), registry)

/-! Concrete fixtures used by witnesses and counterexamples. -/

/-- A configuration matching the defaults after initialization. -/
def cfg0 : Config :=
  { cache_dir := some none
    model_id := some "Tongyi-MAI/Z-Image-Turbo"
    cpu_offload := some false }

/-- A fully healthy load environment. -/
def lenv0 : LoadEnv :=
  { zImageAvailable := true, cudaAvailable := true, modelDirExists := true
    downloadOk := true, fromPretrainedOk := true, placementOk := true }

/-- A load environment in which everything up to and including pipeline
construction succeeds and the device placement step raises. -/
def lenvPlaceFail : LoadEnv :=
  { zImageAvailable := true, cudaAvailable := true, modelDirExists := true
    downloadOk := true, fromPretrainedOk := true, placementOk := false }

/-- A ready, device-placed pipeline handle. -/
def P0 : Pipeline :=
  { model_path := ["models", "Tongyi_MAI_Z_Image_Turbo"]
    dtype_bf16 := true, offloaded := false, device := some "cuda" }

/-- The constructed-but-unplaced handle left behind by a device-placement
failure under `lenvPlaceFail` and `cfg0`. -/
def pUnplaced : Pipeline :=
  { model_path := ["models", "Tongyi_MAI_Z_Image_Turbo"]
    dtype_bf16 := true, offloaded := false, device := none }

/-- An inference step that always succeeds with a fixed payload. -/
def pfConst : PipeFn := fun _ _ _ _ => Except.ok "img"

/-- An inference step that always raises. -/
def pfErr : PipeFn := fun _ _ _ _ => Except.error "boom"

/-- An inference step that honors the generator contract and otherwise leaks
the ambient RNG state into the image: seeded runs depend only on the seed,
unseeded runs depend on the device RNG state. -/
def pfRng : PipeFn := fun _ _ g r =>
  match g with
  | some s => Except.ok ("s" ++ toString s)
  | none => Except.ok ("r" ++ toString r)

/-- A request whose height is not divisible by 16. -/
def req7 : GenerateRequest := { prompt := "a cat", height := 7 }

/-- A request whose height is `0`: divisible by 16 but not positive. -/
def reqH0 : GenerateRequest := { prompt := "a cat", height := 0, width := 1024 }

/-- A valid request with an unseeded (`-1`) generator. -/
def reqSeedFree : GenerateRequest := { prompt := "a cat", seed := -1 }

/-- A valid request with a fixed seed. -/
def reqSeed5 : GenerateRequest := { prompt := "a cat", seed := 5 }

/-- A config with a string `cache_dir`, same model id as `cfgCacheB`. -/
def cfgCacheA : Config :=
  { cache_dir := some (some "/a"), model_id := some "m", cpu_offload := none }

/-- A config with no `cache_dir` key, same model id as `cfgCacheA`. -/
def cfgCacheB : Config :=
  { cache_dir := none, model_id := some "m", cpu_offload := some true }

/-- C1 (counterexample): the claim demands rejection of every height that is
not a *positive* multiple of 16, but `handle_generate_image` checks only
divisibility (main.py line 239). At `height = 0` — divisible by 16 yet not
positive — the request passes validation, the pipeline is invoked, and
generation succeeds instead of failing with HTTP 400. -/
theorem generate_zero_height_not_rejected :
    ¬ (0 < reqH0.height) ∧
    (handle_generate_image pfConst lenv0 0 cfg0 (some P0) reqH0).1 =
      GenResult.ok "data:image/png;base64,img" := by
  exact ⟨by decide, rfl⟩

/-- C1 (amended): for every generation request in which height or width is
not divisible by 16, `handle_generate_image` fails immediately with the
HTTP 400 validation error, before touching the pipeline: the global `pipe`
is unchanged, no notification is emitted, and the inference step is never
consulted (the result is the same for every `pf` and load environment). -/
theorem generate_invalid_dims_rejected (pf : PipeFn) (env : LoadEnv) (rng : Nat)
    (cfg : Config) (pipe : Option Pipeline) (req : GenerateRequest)
    (h : req.height % 16 ≠ 0 ∨ req.width % 16 ≠ 0) :
    handle_generate_image pf env rng cfg pipe req =
      (GenResult.httpError 400 "Height and Width must be divisible by 16.", pipe, []) := by
  unfold handle_generate_image
  rw [if_pos h]

/-- C1 (witness): a request with `height = 7` is rejected with HTTP 400 and
the pipeline state stays `none`. -/
theorem generate_invalid_dims_rejected_witness :
    handle_generate_image pfConst lenv0 0 cfg0 none req7 =
      (GenResult.httpError 400 "Height and Width must be divisible by 16.", none, []) :=
  generate_invalid_dims_rejected pfConst lenv0 0 cfg0 none req7 (by decide)

/-- C2 (code behavior at the failing input): when pipeline construction
succeeds but the device placement step raises, `load_pipeline` propagates
the failure while the global `pipe` holds the constructed-but-unplaced
handle (`device = none`) — the `except` clause of main.py lines 169-173
re-raises without resetting `pipe` — and a later `get_pipeline` returns that
partially initialized handle as if it were ready, contradicting the claimed
transition back to `Absent`. -/
theorem load_placement_failure_exposes_handle :
    (load_pipeline lenvPlaceFail cfg0 none).1 = Except.error LoadError.placementFailed ∧
    (load_pipeline lenvPlaceFail cfg0 none).2.1 = some pUnplaced ∧
    pUnplaced.device = none ∧
    (get_pipeline lenv0 cfg0 (some pUnplaced)).1 = Except.ok () ∧
    (get_pipeline lenv0 cfg0 (some pUnplaced)).2.1 = some pUnplaced := by
  exact ⟨rfl, rfl, rfl, rfl, rfl⟩

/-- C3: whenever `handle_set_settings` returns success, the global `pipe` is
`none` afterwards (for every prior pipeline state), the configuration holds
the newly persisted values, and a subsequent `get_pipeline` on the released
state is exactly a fresh `load_pipeline` run with that configuration. -/
theorem set_settings_success_releases_pipeline (env : SettingsEnv)
    (req : SettingsRequest) (cfg : Config) (pipe : Option Pipeline)
    (r : String × String)
    (h : (handle_set_settings env req cfg pipe).1 = Except.ok r) :
    (handle_set_settings env req cfg pipe).2.2.1 = none ∧
    (handle_set_settings env req cfg pipe).2.1 =
      { cfg with cache_dir := some (some req.cache_dir),
                 cpu_offload := some req.cpu_offload } ∧
    (∀ lenv c, get_pipeline lenv c none = load_pipeline lenv c none) := by
  by_cases hc : req.cache_dir ≠ "" ∧ env.cacheDirExists = false ∧ env.makedirsOk = false
  · exfalso
    unfold handle_set_settings at h
    rw [if_pos hc] at h
    exact absurd h (by simp)
  · unfold handle_set_settings
    rw [if_neg hc]
    exact ⟨by cases pipe <;> rfl, rfl, fun lenv c => rfl⟩

/-- C3 (witness): a successful settings update with the pipeline `Ready`
releases it and records the new values. -/
theorem set_settings_success_releases_pipeline_witness :
    (handle_set_settings ⟨true, true, true⟩ ⟨"/tmp/x", true⟩ cfg0 (some P0)).2.2.1 = none ∧
    (handle_set_settings ⟨true, true, true⟩ ⟨"/tmp/x", true⟩ cfg0 (some P0)).2.1 =
      { cfg0 with cache_dir := some (some "/tmp/x"), cpu_offload := some true } :=
  ⟨(set_settings_success_releases_pipeline ⟨true, true, true⟩ ⟨"/tmp/x", true⟩ cfg0
      (some P0) ("success", "Settings saved. Model will reload on next generation.") rfl).1,
   (set_settings_success_releases_pipeline ⟨true, true, true⟩ ⟨"/tmp/x", true⟩ cfg0
      (some P0) ("success", "Settings saved. Model will reload on next generation.") rfl).2.1⟩

/-- C4: with a fixed seed (`seed ≠ -1`) two `handle_generate_image` calls
with identical parameters and identical model/device state produce identical
output for every inference step that honors the `torch.Generator` contract
(seeded output independent of ambient RNG state); with `seed = -1` no seeded
generator is passed, and there is a generator-honoring inference step for
which two such calls differ across ambient RNG states — the output is not
reproducible. -/
theorem seed_determines_reproducibility :
    (∀ pf : PipeFn, GeneratorRespecting pf →
      ∀ env rng₁ rng₂ cfg pipe req, req.seed ≠ -1 →
        handle_generate_image pf env rng₁ cfg pipe req =
          handle_generate_image pf env rng₂ cfg pipe req) ∧
    (∃ pf : PipeFn, GeneratorRespecting pf ∧ reqSeedFree.seed = -1 ∧
      ∃ rng₁ rng₂ : Nat,
        handle_generate_image pf lenv0 rng₁ cfg0 (some P0) reqSeedFree ≠
          handle_generate_image pf lenv0 rng₂ cfg0 (some P0) reqSeedFree) := by
  constructor
  · intro pf hresp env rng₁ rng₂ cfg pipe req hseed
    unfold handle_generate_image
    by_cases hv : req.height % 16 ≠ 0 ∨ req.width % 16 ≠ 0
    · rw [if_pos hv, if_pos hv]
    · rw [if_neg hv, if_neg hv]
      rcases hgp : get_pipeline env cfg pipe with ⟨r, pipe', notes⟩
      rcases r with e | u
      · rfl
      · rcases pipe' with _ | p
        · rfl
        · show (match pf p req (if req.seed ≠ -1 then some req.seed else none) rng₁ with
              | Except.error m => (GenResult.httpError 500 m, some p, notes)
              | Except.ok img =>
                  (GenResult.ok ("data:image/png;base64," ++ img), some p, notes)) =
            (match pf p req (if req.seed ≠ -1 then some req.seed else none) rng₂ with
              | Except.error m => (GenResult.httpError 500 m, some p, notes)
              | Except.ok img =>
                  (GenResult.ok ("data:image/png;base64," ++ img), some p, notes))
          rw [if_pos hseed, hresp p req req.seed rng₁ rng₂]
  · refine ⟨pfRng, fun p req s r₁ r₂ => rfl, rfl, 0, 1, ?_⟩
    decide

/-- C4 (witness): with seed 5 the outputs at ambient RNG states 0 and 1
coincide. -/
theorem seed_determines_reproducibility_witness :
    handle_generate_image pfRng lenv0 0 cfg0 (some P0) reqSeed5 =
      handle_generate_image pfRng lenv0 1 cfg0 (some P0) reqSeed5 :=
  seed_determines_reproducibility.1 pfRng (fun p req s r₁ r₂ => rfl) lenv0 0 1 cfg0
    (some P0) reqSeed5 (by decide)

/-- C5 (counterexample): `disconnect` uses Python's `list.remove`, which
raises `ValueError` when the channel is absent — calling it on a channel
that was never registered, or on an empty registry, does not succeed. -/
theorem disconnect_absent_raises :
    disconnect [] 0 = Except.error "ValueError" ∧
    disconnect [5] 3 = Except.error "ValueError" := ⟨rfl, rfl⟩

/-- C5 (amended): `disconnect` removes the first occurrence of the channel
from the registry when it is registered, and raises `ValueError` (leaving no
result, hence the registry unchanged) when it is not — it is not
idempotent. -/
theorem disconnect_removes_first_or_raises (registry : List Nat) (channel : Nat) :
    disconnect registry channel =
      if channel ∈ registry then Except.ok (registry.erase channel)
      else Except.error "ValueError" := by
  induction registry with
  | nil => rfl
  | cons x xs ih =>
      by_cases h : x = channel
      · subst h
        simp [disconnect, list_remove, List.erase_cons_head]
      · have hmem : (channel ∈ x :: xs) ↔ (channel ∈ xs) := by
          constructor
          · intro hc
            rcases List.mem_cons.mp hc with h1 | h1
            · exact absurd h1.symm h
            · exact h1
          · exact fun hc => List.mem_cons_of_mem _ hc
        have hlhs : disconnect (x :: xs) channel =
            (disconnect xs channel).map (fun l => x :: l) := by
          simp [disconnect, list_remove, if_neg h]
        rw [hlhs, ih]
        by_cases hm : channel ∈ xs
        · rw [if_pos hm, if_pos (hmem.mpr hm)]
          have herase : (x :: xs).erase channel = x :: xs.erase channel :=
            List.erase_cons_tail (by simpa using h)
          rw [herase]
          rfl
        · rw [if_neg hm, if_neg (fun hc => hm (hmem.mp hc))]
          rfl

/-- C6: `broadcast` attempts delivery to every registered channel in order,
regardless of which sends fail (the attempt list covers the registry for
every failure pattern `sendOk`), leaves the registry unchanged, is total
(never raises to the caller), and on an empty registry is a no-op. -/
theorem broadcast_attempts_all_channels (sendOk : Nat → Bool) (registry : List Nat) :
    ((broadcast sendOk registry).1.map Prod.fst = registry) ∧
    (broadcast sendOk registry).2 = registry ∧
    broadcast sendOk [] = ([], []) := by
  refine ⟨?_, rfl, rfl⟩
  have hcomp : (Prod.fst ∘ fun c : Nat => (c, sendOk c)) = fun c : Nat => c := rfl
  simp [broadcast, List.map_map, hcomp]

/-- C7: when the pipeline is already loaded (`pipe = some p`) and the
inference step fails, `handle_generate_image` reports HTTP 500 with the
failure message while the global `pipe` still holds the same ready handle —
no unload happens and no load sequence runs (no notifications). -/
theorem inference_failure_keeps_pipeline (pf : PipeFn) (env : LoadEnv)
    (rng : Nat) (cfg : Config) (p : Pipeline) (req : GenerateRequest)
    (msg : String)
    (hdims : ¬(req.height % 16 ≠ 0 ∨ req.width % 16 ≠ 0))
    (hfail : pf p req (if req.seed ≠ -1 then some req.seed else none) rng =
      Except.error msg) :
    handle_generate_image pf env rng cfg (some p) req =
      (GenResult.httpError 500 msg, some p, []) := by
  unfold handle_generate_image
  rw [if_neg hdims]
  show (match pf p req (if req.seed ≠ -1 then some req.seed else none) rng with
      | Except.error m => (GenResult.httpError 500 m, some p, ([] : List Notification))
      | Except.ok img =>
          (GenResult.ok ("data:image/png;base64," ++ img), some p, [])) =
    (GenResult.httpError 500 msg, some p, [])
  rw [hfail]

/-- C7 (witness): a failing inference on a ready pipeline yields HTTP 500
and the pipeline handle survives. -/
theorem inference_failure_keeps_pipeline_witness :
    handle_generate_image pfErr lenv0 0 cfg0 (some P0) reqSeedFree =
      (GenResult.httpError 500 "boom", some P0, []) :=
  inference_failure_keeps_pipeline pfErr lenv0 0 cfg0 P0 reqSeedFree "boom"
    (by decide) rfl

/-- C8 (counterexample): `load_config` applies no per-field defaults to a
document that parses — parsing the empty document `{}` returns it verbatim
with `model_id` still absent — and the fallback document returned for
malformed data lacks the `cpu_offload` key, so it is not the full default
configuration either. -/
theorem load_config_no_field_defaults :
    (load_config (ConfigFileState.parsed
      { cache_dir := none, model_id := none, cpu_offload := none })).1.model_id = none ∧
    (load_config ConfigFileState.malformed).1.cpu_offload = none := ⟨rfl, rfl⟩

/-- C8 (amended): `load_config` returns the parsed document verbatim when
the file parses (no per-field defaults); on a malformed file it logs and
returns the fallback document `{cache_dir = null, model_id = default}`
(without a `cpu_offload` key) rather than raising, and on a missing file it
returns the same fallback without logging; `cpu_offload` is defaulted to
`false` at module initialization, which for a malformed file yields the full
default configuration. -/
theorem load_config_returns_doc_or_fallback :
    (∀ doc : Config, load_config (ConfigFileState.parsed doc) = (doc, false)) ∧
    load_config ConfigFileState.malformed = (defaultDoc, true) ∧
    load_config ConfigFileState.missing = (defaultDoc, false) ∧
    (∀ fs : ConfigFileState, (initModelConfig fs).cpu_offload.isSome = true) ∧
    initModelConfig ConfigFileState.malformed =
      { cache_dir := some none, model_id := some "Tongyi-MAI/Z-Image-Turbo",
        cpu_offload := some false } := by
  refine ⟨fun doc => rfl, rfl, rfl, ?_, rfl⟩
  intro fs
  unfold initModelConfig
  by_cases h : (load_config fs).1.cpu_offload = none
  · rw [if_pos h]
    rfl
  · rw [if_neg h]
    rcases hcpu : (load_config fs).1.cpu_offload with _ | b
    · exact absurd hcpu h
    · simp [Option.isSome]

/-- C9: when the persistence write fails (and `makedirs` does not raise),
`handle_set_settings` still returns the success body — the failure is logged
and never propagated — and the in-memory configuration reflects the
attempted change. -/
theorem save_failure_not_propagated (env : SettingsEnv) (req : SettingsRequest)
    (cfg : Config) (pipe : Option Pipeline)
    (hmk : ¬(req.cache_dir ≠ "" ∧ env.cacheDirExists = false ∧ env.makedirsOk = false))
    (hsave : env.saveOk = false) :
    (handle_set_settings env req cfg pipe).1 =
      Except.ok ("success", "Settings saved. Model will reload on next generation.") ∧
    (handle_set_settings env req cfg pipe).2.1 =
      { cfg with cache_dir := some (some req.cache_dir),
                 cpu_offload := some req.cpu_offload } ∧
    (handle_set_settings env req cfg pipe).2.2.2 = ["Error saving config"] := by
  unfold handle_set_settings
  rw [if_neg hmk]
  refine ⟨rfl, rfl, ?_⟩
  simp [save_config, hsave]

/-- C9 (witness): a settings update whose write fails still succeeds and
records the new values in memory. -/
theorem save_failure_not_propagated_witness :
    (handle_set_settings ⟨true, true, false⟩ ⟨"/tmp/x", true⟩ cfg0 (some P0)).1 =
      Except.ok ("success", "Settings saved. Model will reload on next generation.") ∧
    (handle_set_settings ⟨true, true, false⟩ ⟨"/tmp/x", true⟩ cfg0 (some P0)).2.1 =
      { cfg0 with cache_dir := some (some "/tmp/x"), cpu_offload := some true } ∧
    (handle_set_settings ⟨true, true, false⟩ ⟨"/tmp/x", true⟩ cfg0 (some P0)).2.2.2 =
      ["Error saving config"] :=
  save_failure_not_propagated ⟨true, true, false⟩ ⟨"/tmp/x", true⟩ cfg0 (some P0)
    (by decide) rfl

/-- C10: `get_model_directory` depends only on the `model_id` field of the
configuration — two configurations that agree on `model_id` resolve to the
same model directory no matter how their `cache_dir` (or `cpu_offload`)
differ. -/
theorem get_model_directory_ignores_cache_dir (c₁ c₂ : Config)
    (h : c₁.model_id = c₂.model_id) :
    get_model_directory c₁ = get_model_directory c₂ := by
  unfold get_model_directory
  rw [h]

/-- C10 (witness): two configurations differing in `cache_dir` resolve to
the same directory. -/
theorem get_model_directory_ignores_cache_dir_witness :
    cfgCacheA.cache_dir ≠ cfgCacheB.cache_dir ∧
    get_model_directory cfgCacheA = get_model_directory cfgCacheB :=
  ⟨by decide, get_model_directory_ignores_cache_dir cfgCacheA cfgCacheB rfl⟩

end ZImageBackend
